import Mathlib

/-!
Verification of the discovery sub-protocol of go-pvaccess (package `search`):
beacon scheduling and search-request response policy. Definitions are a
shallow embedding of `src/internal/search/search.go` (the listener-based
search responder and beacon loop) and `src/unnamed/part_000` (the manual
per-interface beacon sender variant). Wire structures and protocol
constants from the external `proto`/`pvdata` packages, which are not part
of this repository snapshot, are modelled from the specification.
-/

namespace PVASearch

/-- Go error values as relevant here: `io.EOF` is distinguished because the
code treats it as the expected end-of-handling condition; every other error
is an opaque tagged value. -/
inductive GoErr where
  | eof : GoErr
  | other : String → GoErr
deriving DecidableEq, Repr

/-- Go `copy(dst, src)` semantics on byte lists: overwrite the prefix of
`dst` with `src`, truncated to `dst`'s length; the tail of `dst` is kept. -/
def goCopy (dst src : List Nat) : List Nat :=
  src.take dst.length ++ dst.drop (min dst.length src.length)

/-- The all-zero 16-byte array, the zero value of a Go `[16]byte` field. -/
def zero16 : List Nat := List.replicate 16 0

/-- The IPv4-in-IPv6 mapping prefix used by Go's `net.IP.To16`. -/
def v4MappedHead : List Nat := [0, 0, 0, 0, 0, 0, 0, 0, 0, 0, 0xff, 0xff]

/-- Go `net.IP.To16`: a 4-byte address becomes its IPv4-mapped 16-byte
form, a 16-byte address is returned unchanged, anything else is nil. -/
def ipTo16 (ip : List Nat) : List Nat :=
  if ip.length = 4 then v4MappedHead ++ ip
  else if ip.length = 16 then ip
  else []

/-- Go `net.IP.To4`: a 4-byte address is returned unchanged, an
IPv4-mapped 16-byte address yields its last 4 bytes, anything else nil. -/
def ipTo4 (ip : List Nat) : List Nat :=
  if ip.length = 4 then ip
  else if ip.length = 16 ∧ ip.take 12 = v4MappedHead then ip.drop 12
  else []

/-- Modelled from the spec: the search-request application command code
(`proto.APP_SEARCH_REQUEST`; the `proto` package is outside this snapshot,
the concrete value is immaterial to the claims). -/
def APP_SEARCH_REQUEST : Nat := 3

/-- Modelled from the spec: the search-response application command code
(`proto.APP_SEARCH_RESPONSE`). -/
def APP_SEARCH_RESPONSE : Nat := 4

/-- Modelled from the spec: the beacon application command code
(`proto.APP_BEACON`). -/
def APP_BEACON : Nat := 0

/-- Modelled from the spec: the `SEARCH_REPLY_REQUIRED` flag bit of a
search request (a single flag bit; the concrete position is immaterial). -/
def SEARCH_REPLY_REQUIRED : Nat := 0x80

/-- Modelled from the spec: one requested channel of a `proto.SearchRequest`,
carrying a caller-assigned SearchInstanceID and a channel name. -/
structure SearchChannel where
  searchInstanceID : Nat
  name : String
deriving DecidableEq, Repr

/-- Modelled from the spec: `proto.SearchRequest` — SearchSequenceID (echoed
back), flag bits, and the ordered list of requested channels. -/
structure SearchRequest where
  searchSequenceID : Nat
  flags : Nat
  channels : List SearchChannel
deriving DecidableEq, Repr

/-- Modelled from the spec: `proto.SearchResponse` — GUID, echoed
SearchSequenceID, advertised server address/port/protocol, Found flag and
the list of SearchInstanceIDs. -/
structure SearchResponse where
  guid : List Nat
  searchSequenceID : Nat
  serverAddress : List Nat
  serverPort : Nat
  protocol : String
  found : Bool
  searchInstanceIDs : List Nat
deriving DecidableEq, Repr

/-- Whether a search request's reply-required flag bit is set, as tested by
the code: `req.Flags&proto.SEARCH_REPLY_REQUIRED == proto.SEARCH_REPLY_REQUIRED`. -/
def replyRequired (req : SearchRequest) : Bool :=
  req.flags &&& SEARCH_REPLY_REQUIRED = SEARCH_REPLY_REQUIRED

/-- Modelled from the spec: the Channel Directory lookup (`// TODO: Find
channels` in `handleConnection`): `found` lists the instance IDs of the
requested channels the directory `dir` reports served locally. This
version's directory is `stubDir`, which reports none found. -/
def foundChannels (dir : String → Bool) (channels : List SearchChannel) : List Nat :=
  (channels.filter fun c => dir c.name).map fun c => c.searchInstanceID

/-- The Channel Directory shipped in this version: an inert stub that
reports every channel not served locally. -/
def stubDir : String → Bool := fun _ => false

/-- The search-processing body of `searchServer.handleConnection`
(search.go lines 140-158), for an already decoded request `req`:
build the response from the searchServer fields (`guid`, `serverPort`) and
the local address `laddr` of the listening endpoint, then send it only if
a channel was found or the reply-required flag is set. Returns the sent
response, or `none` when the handler stays silent. -/
def processSearch (guid : List Nat) (serverPort : Nat) (laddr : List Nat)
    (dir : String → Bool) (req : SearchRequest) : Option SearchResponse :=
  let found := foundChannels dir req.channels
  let resp0 : SearchResponse :=
    { guid := guid
      searchSequenceID := req.searchSequenceID
      serverAddress := goCopy zero16 (ipTo16 laddr)
      serverPort := serverPort
      protocol := "tcp"
      found := false
      searchInstanceIDs := [] }
  let resp :=
    if found.length = 0 then
      { resp0 with
        found := false
        searchInstanceIDs := req.channels.map fun c => c.searchInstanceID }
    else resp0
  if found.length > 0 ∨ replyRequired req then some resp else none

/-- A framed message as seen by `handleConnection`: the header's command
code, and the outcome `msg.Decode(&req)` would produce were the payload
decoded as a search request. -/
structure Message where
  messageCommand : Nat
  decodeSearch : Except GoErr SearchRequest

/-- `searchServer.handleConnection` (search.go lines 114-161): read one
message (outcome `readResult`), silently drop anything that is not a search
request, decode and process a search request. Returns the response sent (if
any) and the handler's returned error value — `GoErr.eof` on every normal
exit path (line 160 returns `io.EOF`). -/
def handleConnection (guid : List Nat) (serverPort : Nat) (laddr : List Nat)
    (dir : String → Bool) (readResult : Except GoErr Message) :
    Option SearchResponse × GoErr :=
  match readResult with
  | .error e => (none, e)
  | .ok msg =>
    if msg.messageCommand = APP_SEARCH_REQUEST then
      match msg.decodeSearch with
      | .error e => (none, e)
      | .ok req => (processSearch guid serverPort laddr dir req, .eof)
    else (none, .eof)

/-- The deferred warning in `handleConnection` fires only when the returned
error is non-nil and not `io.EOF`; the handler always returns a non-nil
error, so: logged iff the exit value differs from `io.EOF`. -/
def loggedAsError (e : GoErr) : Bool := e ≠ GoErr.eof

/-- Go `time.Second` in nanoseconds, the unit of `time.Duration`. -/
def second : Nat := 1000000000

/-- `const startupInterval = time.Second`. -/
def startupInterval : Nat := second

/-- `const startupCount = 15`. -/
def startupCount : Nat := 15

/-- `const beaconInterval = 5 * time.Second`. -/
def beaconInterval : Nat := 5 * second

/-- Modelled from the spec: `proto.BeaconMessage` — GUID, advertised server
address (16-byte field), advertised TCP port, protocol name, and the
beacon sequence counter. -/
structure BeaconMessage where
  guid : List Nat
  serverAddress : List Nat
  serverPort : Nat
  protocol : String
  beaconSequenceID : Nat
deriving DecidableEq, Repr

/-- The beacon template right before the tick loop of `Serve` in
`src/unnamed/part_000`: a zero `proto.BeaconMessage` whose GUID has been
filled from the random source, ServerPort set from the caller's address and
Protocol set to "tcp"; ServerAddress is left at its zero value. -/
def initialBeacon (guid : List Nat) (serverPort : Nat) : BeaconMessage :=
  { guid := guid
    serverAddress := zero16
    serverPort := serverPort
    protocol := "tcp"
    beaconSequenceID := 0 }

/-- The `sender` of `src/unnamed/part_000`: an outbound beacon path,
retaining the local interface address it was dialed from (the connection
itself is abstracted away; a transmission is the message value sent). -/
structure sender where
  ip : List Nat
deriving DecidableEq, Repr

/-- `sender.send` (`src/unnamed/part_000` lines 98-101): the beacon is
passed by value, so the copy of the per-path local address into its
ServerAddress field happens on a per-send copy and never mutates the
scheduler's template. Returns the message as transmitted. -/
def sender.send (s : sender) (pkt : BeaconMessage) : BeaconMessage :=
  { pkt with serverAddress := goCopy pkt.serverAddress s.ip }

/-- The loop state of the beacon scheduler in `Serve` (both variants share
it verbatim): the beacon template, the tick counter `i`, and the interval
of the ticker currently installed. -/
structure SchedState where
  beacon : BeaconMessage
  i : Nat
  period : Nat
deriving DecidableEq, Repr

/-- Scheduler state on entry to the tick loop: counter `i = 0` and a fresh
ticker with `startupInterval`. -/
def schedInit (b0 : BeaconMessage) : SchedState :=
  { beacon := b0, i := 0, period := startupInterval }

/-- One firing of the ticker (the `case <-ticker.C` body): increment
BeaconSequenceID once, transmit the incremented beacon via every sender,
increment `i`, and when `i` reaches `startupCount` replace the ticker with
the steady-state interval. Returns the new state and the batch of
transmitted messages. -/
def schedTick (senders : List sender) (st : SchedState) :
    SchedState × List BeaconMessage :=
  let b := { st.beacon with beaconSequenceID := st.beacon.beaconSequenceID + 1 }
  let out := senders.map fun s => sender.send s b
  let i := st.i + 1
  let p := if i = startupCount then beaconInterval else st.period
  ({ beacon := b, i := i, period := p }, out)

/-- Scheduler state after `n` ticks have fired. -/
def schedAfter (senders : List sender) (b0 : BeaconMessage) : Nat → SchedState
  | 0 => schedInit b0
  | n + 1 => (schedTick senders (schedAfter senders b0 n)).1

/-- The batch of beacon messages transmitted at tick `n` (`n ≥ 1`). -/
def schedOutputs (senders : List sender) (b0 : BeaconMessage) (n : Nat) :
    List BeaconMessage :=
  (schedTick senders (schedAfter senders b0 (n - 1))).2

/-- The ticker interval in force while waiting for tick `n` (`n ≥ 1`): the
period of the scheduler state after `n - 1` ticks. -/
def tickInterval (senders : List sender) (b0 : BeaconMessage) (n : Nat) : Nat :=
  (schedAfter senders b0 (n - 1)).period

/-- Elapsed time from loop entry until tick `n` fires: the sum of the
intervals the ticker waited before each of the first `n` ticks. -/
def tickTime (senders : List sender) (b0 : BeaconMessage) : Nat → Nat
  | 0 => 0
  | n + 1 => tickTime senders b0 n + tickInterval senders b0 (n + 1)

/-- A local network interface as used by `Serve` in `src/unnamed/part_000`:
its name and the outcome of `i.Addrs()`, each address reduced to the IP
bytes of its `*net.IPNet` entry. -/
structure NetInterface where
  name : String
  addrs : Except GoErr (List (List Nat))

/-- A `*net.IPAddr`: IP bytes plus zone (set to the interface name during
enumeration). -/
structure IPAddr where
  ip : List Nat
  zone : String
deriving DecidableEq, Repr

/-- Go `net.IP.IsUnspecified` on the byte-list model: equal (in the sense
of `net.IP.Equal`) to `0.0.0.0` or `::`. -/
def isUnspecified (ip : List Nat) : Bool :=
  ip = [0, 0, 0, 0] ∨ ip = List.replicate 16 0 ∨ ip = v4MappedHead ++ [0, 0, 0, 0]

/-- The test on `serverAddr.IP` in `src/unnamed/part_000` line 31:
`serverAddr.IP == nil || serverAddr.IP.IsUnspecified()` (nil modelled as
the empty byte list). -/
def wildcardMode (cfgIP : List Nat) : Bool :=
  cfgIP = [] ∨ isUnspecified cfgIP

/-- The interface-enumeration loop (`src/unnamed/part_000` lines 37-47):
collect one `IPAddr` per interface address, zone set to the interface name,
propagating the first `i.Addrs()` failure. -/
def interfaceIPs : List NetInterface → Except GoErr (List IPAddr)
  | [] => .ok []
  | i :: rest =>
    match i.addrs with
    | .error e => .error e
    | .ok as =>
      match interfaceIPs rest with
      | .error e => .error e
      | .ok tail => .ok ((as.map fun a => { ip := a, zone := i.name }) ++ tail)

/-- The `ips` computation of `Serve` (`src/unnamed/part_000` lines 30-48):
a concrete configured IP is used alone; a nil or unspecified one triggers
interface enumeration (whose failure, from `net.Interfaces()` as a whole or
any `i.Addrs()`, is propagated). -/
def beaconIPs (cfgIP : List Nat) (zone : String)
    (ifacesResult : Except GoErr (List NetInterface)) :
    Except GoErr (List IPAddr) :=
  if wildcardMode cfgIP then
    match ifacesResult with
    | .error e => .error e
    | .ok ifaces => interfaceIPs ifaces
  else .ok [{ ip := cfgIP, zone := zone }]

/-- `net.IPv6linklocalallnodes` (ff02::1). -/
def IPv6linklocalallnodes : List Nat :=
  [0xff, 0x02, 0, 0, 0, 0, 0, 0, 0, 0, 0, 0, 0, 0, 0, 0x01]

/-- `net.IPv4bcast` (255.255.255.255). -/
def IPv4bcast : List Nat := [255, 255, 255, 255]

/-- The beacon destination for one local address (`src/unnamed/part_000`
lines 55-61): the all-nodes link-local multicast address, or the limited
broadcast address when the local address is IPv4. -/
def beaconDest (ip : List Nat) : List Nat :=
  if (ipTo4 ip).length = 4 then IPv4bcast else IPv6linklocalallnodes

/-- The sender-construction loop (`src/unnamed/part_000` lines 53-70):
dial one UDP path per planned local address (outcome injected via `dial`,
keyed by local address and destination), failing on the first dial error;
each successful dial yields a `sender` remembering its local IP. -/
def mkSenders (dial : IPAddr → List Nat → Except GoErr Unit) :
    List IPAddr → Except GoErr (List sender)
  | [] => .ok []
  | a :: rest =>
    match dial a (beaconDest a.ip) with
    | .error e => .error e
    | .ok _ =>
      match mkSenders dial rest with
      | .error e => .error e
      | .ok ss => .ok ({ ip := a.ip } :: ss)

/-- The startup phase of `Serve` (`src/unnamed/part_000` lines 25-70),
before the tick loop: read the random GUID, plan the beacon addresses, dial
the senders; the first failure is returned as is. -/
def serveStartup (guidResult : Except GoErr (List Nat)) (cfgIP : List Nat)
    (zone : String) (ifacesResult : Except GoErr (List NetInterface))
    (dial : IPAddr → List Nat → Except GoErr Unit) :
    Except GoErr (List Nat × List sender) :=
  match guidResult with
  | .error e => .error e
  | .ok g =>
    match beaconIPs cfgIP zone ifacesResult with
    | .error e => .error e
    | .ok ips =>
      match mkSenders dial ips with
      | .error e => .error e
      | .ok ss => .ok (g, ss)

/-- `Serve` (`src/unnamed/part_000`): on a startup failure, return that
error before any tick runs; otherwise the first `ticks` firings of the
scheduler, as the per-tick batches of transmitted beacons. -/
def Serve (guidResult : Except GoErr (List Nat)) (cfgIP : List Nat)
    (zone : String) (ifacesResult : Except GoErr (List NetInterface))
    (dial : IPAddr → List Nat → Except GoErr Unit)
    (serverPort : Nat) (ticks : Nat) :
    Except GoErr (List (List BeaconMessage)) :=
  match serveStartup guidResult cfgIP zone ifacesResult dial with
  | .error e => .error e
  | .ok gs =>
    .ok ((List.range ticks).map fun k =>
      schedOutputs gs.2 (initialBeacon gs.1 serverPort) (k + 1))

/-- All beacons a `Serve` run transmits: none when it returned an error. -/
def transmittedBeacons : Except GoErr (List (List BeaconMessage)) → List BeaconMessage
  | .error _ => []
  | .ok bs => bs.flatten

/-! Helper lemmas about the scheduler iteration. -/

lemma schedAfter_succ (senders : List sender) (b0 : BeaconMessage) (n : Nat) :
    schedAfter senders b0 (n + 1) = (schedTick senders (schedAfter senders b0 n)).1 := rfl

lemma schedTick_beacon_seq (senders : List sender) (st : SchedState) :
    (schedTick senders st).1.beacon.beaconSequenceID = st.beacon.beaconSequenceID + 1 := rfl

lemma schedAfter_seq (senders : List sender) (b0 : BeaconMessage) (n : Nat) :
    (schedAfter senders b0 n).beacon.beaconSequenceID = b0.beaconSequenceID + n := by
  induction n with
  | zero => rfl
  | succ n ih =>
    rw [schedAfter_succ, schedTick_beacon_seq, ih]
    omega

lemma schedAfter_i (senders : List sender) (b0 : BeaconMessage) (n : Nat) :
    (schedAfter senders b0 n).i = n := by
  induction n with
  | zero => rfl
  | succ n ih =>
    rw [schedAfter_succ]
    show (schedAfter senders b0 n).i + 1 = n + 1
    rw [ih]

lemma schedAfter_period (senders : List sender) (b0 : BeaconMessage) (n : Nat) :
    (schedAfter senders b0 n).period =
      if n < startupCount then startupInterval else beaconInterval := by
  induction n with
  | zero => simp [schedAfter, schedInit, startupCount]
  | succ n ih =>
    rw [schedAfter_succ]
    show (if (schedAfter senders b0 n).i + 1 = startupCount then beaconInterval
          else (schedAfter senders b0 n).period) = _
    rw [schedAfter_i, ih]
    rcases Nat.lt_trichotomy (n + 1) startupCount with h | h | h
    · have h1 : ¬ n + 1 = startupCount := by omega
      have h2 : n < startupCount := by omega
      simp [h, h1, h2]
    · simp [h, startupCount]
    · have h1 : ¬ n + 1 = startupCount := by omega
      have h2 : ¬ n < startupCount := by omega
      have h3 : ¬ n + 1 < startupCount := by omega
      simp [h1, h2, h3]

lemma schedAfter_serverAddress (senders : List sender) (b0 : BeaconMessage) (n : Nat) :
    (schedAfter senders b0 n).beacon.serverAddress = b0.serverAddress := by
  induction n with
  | zero => rfl
  | succ n ih => rw [schedAfter_succ]; exact ih

lemma schedOutputs_eq (senders : List sender) (b0 : BeaconMessage) (n : Nat)
    (h : 1 ≤ n) :
    schedOutputs senders b0 n =
      senders.map fun s => sender.send s (schedAfter senders b0 n).beacon := by
  obtain ⟨m, rfl⟩ : ∃ m, n = m + 1 := ⟨n - 1, by omega⟩
  show (schedTick senders (schedAfter senders b0 (m + 1 - 1))).2 = _
  rw [schedAfter_succ]
  rfl

lemma sender_send_seq (s : sender) (pkt : BeaconMessage) :
    (sender.send s pkt).beaconSequenceID = pkt.beaconSequenceID := rfl

lemma tickInterval_eq (senders : List sender) (b0 : BeaconMessage) (n : Nat) :
    tickInterval senders b0 n =
      if n - 1 < startupCount then startupInterval else beaconInterval := by
  unfold tickInterval
  exact schedAfter_period senders b0 (n - 1)

lemma tickTime_startup (senders : List sender) (b0 : BeaconMessage) (n : Nat)
    (h : n ≤ startupCount) :
    tickTime senders b0 n = n * startupInterval := by
  induction n with
  | zero => rfl
  | succ n ih =>
    show tickTime senders b0 n + tickInterval senders b0 (n + 1) = _
    rw [ih (by omega), tickInterval_eq]
    have h2 : n + 1 - 1 < startupCount := by omega
    rw [if_pos h2]
    ring

/-! Helper lemmas about the search responder. -/

lemma foundChannels_eq_nil (dir : String → Bool) (cs : List SearchChannel)
    (h : ∀ c ∈ cs, dir c.name = false) : foundChannels dir cs = [] := by
  unfold foundChannels
  rw [List.filter_eq_nil_iff.mpr (by simpa using h)]
  rfl

lemma foundChannels_ne_nil_iff (dir : String → Bool) (cs : List SearchChannel) :
    foundChannels dir cs ≠ [] ↔ ∃ c ∈ cs, dir c.name = true := by
  unfold foundChannels
  simp [List.filter_eq_nil_iff]

lemma processSearch_no_match (guid : List Nat) (port : Nat) (laddr : List Nat)
    (dir : String → Bool) (req : SearchRequest)
    (hf : foundChannels dir req.channels = [])
    (h1 : replyRequired req = true) :
    processSearch guid port laddr dir req = some
      { guid := guid
        searchSequenceID := req.searchSequenceID
        serverAddress := goCopy zero16 (ipTo16 laddr)
        serverPort := port
        protocol := "tcp"
        found := false
        searchInstanceIDs := req.channels.map fun c => c.searchInstanceID } := by
  unfold processSearch
  rw [hf]
  simp [h1]

lemma processSearch_serverAddress (guid : List Nat) (port : Nat) (laddr : List Nat)
    (dir : String → Bool) (req : SearchRequest) (r : SearchResponse)
    (h : processSearch guid port laddr dir req = some r) :
    r.serverAddress = goCopy zero16 (ipTo16 laddr) := by
  simp only [processSearch] at h
  split at h
  · split at h
    · rw [← Option.some.inj h]
    · rw [← Option.some.inj h]
  · exact absurd h (by simp)

/-! Concrete inputs used by witnesses and counterexample evaluations. -/

/-- A directory reporting exactly channel "A" as served locally. -/
def dirA : String → Bool := fun s => s == "A"

/-- The request of the spec's example: channels A (instance ID 1) and
B (instance ID 2), sequence ID 42, no flags. -/
def reqAB : SearchRequest :=
  { searchSequenceID := 42
    flags := 0
    channels := [{ searchInstanceID := 1, name := "A" },
                 { searchInstanceID := 2, name := "B" }] }

/-- A fixed 12-byte GUID for concrete evaluations. -/
def guid0 : List Nat := List.replicate 12 3

/-- A framed message holding a decoded search request with the
reply-required flag set and no channels. -/
def msg7 : Message :=
  { messageCommand := APP_SEARCH_REQUEST
    decodeSearch := .ok { searchSequenceID := 7, flags := 0x80, channels := [] } }

/-- A framed message whose command is the beacon command, not a search
request. -/
def msgBeacon : Message :=
  { messageCommand := APP_BEACON
    decodeSearch := .error (GoErr.other "not decoded") }

/-! The claims. -/

/-- C1: for every decoded search request, the responder sends a search
response if and only if at least one requested channel is reported found by
the Channel Directory or the reply-required flag bit is set; otherwise it
sends nothing. -/
theorem search_response_iff (guid : List Nat) (port : Nat) (laddr : List Nat)
    (dir : String → Bool) (req : SearchRequest) :
    (processSearch guid port laddr dir req).isSome
      ↔ ((∃ c ∈ req.channels, dir c.name = true) ∨ replyRequired req = true) := by
  rw [← foundChannels_ne_nil_iff]
  simp only [processSearch]
  split
  case isTrue h =>
    simp only [Option.isSome_some, true_iff]
    rcases h with h | h
    · exact Or.inl (by intro hnil; rw [hnil] at h; exact absurd h (by simp))
    · exact Or.inr h
  case isFalse h =>
    simp only [Option.isSome_none, Bool.false_eq_true, false_iff]
    intro hc
    apply h
    rcases hc with hc | hc
    · exact Or.inl (by
        rcases List.exists_mem_of_ne_nil _ hc with ⟨x, _⟩
        exact List.length_pos.mpr hc)
    · exact Or.inr hc

/-- C2: for a search request with the reply-required flag set and a Channel
Directory reporting zero matches, exactly one response is sent, echoing the
SearchSequenceID verbatim, with Found = false and SearchInstanceIDs equal
(indeed as lists, hence as sets) to the instance IDs of every requested
channel. -/
theorem reply_required_no_match_response (guid : List Nat) (port : Nat)
    (laddr : List Nat) (dir : String → Bool) (req : SearchRequest)
    (h1 : replyRequired req = true)
    (h2 : ∀ c ∈ req.channels, dir c.name = false) :
    ∃ r, processSearch guid port laddr dir req = some r
      ∧ r.searchSequenceID = req.searchSequenceID
      ∧ r.found = false
      ∧ r.searchInstanceIDs = req.channels.map (fun c => c.searchInstanceID)
      ∧ (∀ x, x ∈ r.searchInstanceIDs
            ↔ x ∈ req.channels.map fun c => c.searchInstanceID) :=
  ⟨_, processSearch_no_match guid port laddr dir req
        (foundChannels_eq_nil dir req.channels h2) h1,
    rfl, rfl, rfl, fun _ => Iff.rfl⟩

/-- C2 witness: the spec's example request (SearchSequenceID 42, channels
with instance IDs 1 and 2) with the reply-required flag set, against the
stub directory. -/
theorem reply_required_no_match_response_witness :
    ∃ r, processSearch guid0 5075 [10, 0, 0, 5] stubDir
          { reqAB with flags := 0x80 } = some r
      ∧ r.searchSequenceID = 42
      ∧ r.found = false
      ∧ r.searchInstanceIDs = [1, 2]
      ∧ (∀ x, x ∈ r.searchInstanceIDs ↔ x ∈ [1, 2]) := by
  have h := reply_required_no_match_response guid0 5075 [10, 0, 0, 5] stubDir
    { reqAB with flags := 0x80 } (by decide) (by decide)
  simpa [reqAB] using h

/-- C10: a search request with an empty channel list and the reply-required
flag set still gets a response, with Found = false and an empty
SearchInstanceIDs list. -/
theorem empty_request_still_replies (guid : List Nat) (port : Nat)
    (laddr : List Nat) (dir : String → Bool) (req : SearchRequest)
    (h0 : req.channels = [])
    (h1 : replyRequired req = true) :
    ∃ r, processSearch guid port laddr dir req = some r
      ∧ r.found = false
      ∧ r.searchInstanceIDs = [] := by
  refine ⟨_, processSearch_no_match guid port laddr dir req ?_ h1, rfl, ?_⟩
  · rw [h0]; rfl
  · rw [h0]; rfl

/-- C10 witness: the concrete empty request with flags 0x80. -/
theorem empty_request_still_replies_witness :
    ∃ r, processSearch guid0 5075 [10, 0, 0, 5] stubDir
          { searchSequenceID := 7, flags := 0x80, channels := [] } = some r
      ∧ r.found = false
      ∧ r.searchInstanceIDs = [] :=
  empty_request_still_replies guid0 5075 [10, 0, 0, 5] stubDir
    { searchSequenceID := 7, flags := 0x80, channels := [] } rfl (by decide)

/-- C3 (code evaluation at the failing input): on the spec's own example —
channels A (ID 1) and B (ID 2), directory reporting A found — the code
sends a response whose Found flag is still false (its zero value is never
set on the found path) and whose SearchInstanceIDs list is empty, instead
of Found = true with SearchInstanceIDs = [1] as the claim states. -/
theorem found_channel_response_divergence :
    (processSearch guid0 5075 [10, 0, 0, 5] dirA reqAB).map
        (fun r => (r.found, r.searchInstanceIDs)) = some (false, []) := by
  decide

/-- C7: every search response the handler sends carries, in its server
address field, the 16-byte form of the local address of the listening
endpoint that received the request, copied into the zero-initialized field;
the globally configured advertise address is not even an input of the
handler. -/
theorem response_carries_local_address (guid : List Nat) (port : Nat)
    (laddr : List Nat) (dir : String → Bool)
    (readResult : Except GoErr Message) (r : SearchResponse) (e : GoErr)
    (h : handleConnection guid port laddr dir readResult = (some r, e)) :
    r.serverAddress = goCopy zero16 (ipTo16 laddr) := by
  cases readResult with
  | error e0 =>
    exact Option.noConfusion (congrArg Prod.fst
      (show ((none : Option SearchResponse), e0) = (some r, e) from h))
  | ok msg =>
    have h' : (if msg.messageCommand = APP_SEARCH_REQUEST then
        (match msg.decodeSearch with
          | Except.error e1 => ((none : Option SearchResponse), e1)
          | Except.ok req => (processSearch guid port laddr dir req, GoErr.eof))
        else ((none : Option SearchResponse), GoErr.eof)) = (some r, e) := h
    by_cases hc : msg.messageCommand = APP_SEARCH_REQUEST
    · rw [if_pos hc] at h'
      cases hd : msg.decodeSearch with
      | error e1 =>
        rw [hd] at h'
        exact Option.noConfusion (congrArg Prod.fst h')
      | ok req =>
        rw [hd] at h'
        exact processSearch_serverAddress guid port laddr dir req r
          (congrArg Prod.fst h')
    · rw [if_neg hc] at h'
      exact Option.noConfusion (congrArg Prod.fst h')

/-- C7 witness: a concrete handled request on listener address 10.0.0.5. -/
theorem response_carries_local_address_witness :
    ({ guid := guid0
       searchSequenceID := 7
       serverAddress := goCopy zero16 (ipTo16 [10, 0, 0, 5])
       serverPort := 5075
       protocol := "tcp"
       found := false
       searchInstanceIDs := [] } : SearchResponse).serverAddress
      = goCopy zero16 (ipTo16 [10, 0, 0, 5]) :=
  response_carries_local_address guid0 5075 [10, 0, 0, 5] stubDir
    (.ok msg7) _ GoErr.eof (by rfl)

/-- C9: an inbound message whose command is not the search-request command
produces no response and ends the handler with the `io.EOF` value, the
normal end-of-handling condition, which the deferred log check does not
log as an error. -/
theorem non_search_command_silent (guid : List Nat) (port : Nat)
    (laddr : List Nat) (dir : String → Bool) (msg : Message)
    (h : msg.messageCommand ≠ APP_SEARCH_REQUEST) :
    handleConnection guid port laddr dir (.ok msg) = (none, GoErr.eof)
      ∧ loggedAsError GoErr.eof = false := by
  constructor
  · show (if msg.messageCommand = APP_SEARCH_REQUEST then
        (match msg.decodeSearch with
          | Except.error e1 => ((none : Option SearchResponse), e1)
          | Except.ok req => (processSearch guid port laddr dir req, GoErr.eof))
        else ((none : Option SearchResponse), GoErr.eof)) = (none, GoErr.eof)
    rw [if_neg h]
  · decide

/-- C9 witness: a beacon-command message is dropped silently. -/
theorem non_search_command_silent_witness :
    handleConnection guid0 5075 [10, 0, 0, 5] stubDir (.ok msgBeacon)
        = (none, GoErr.eof)
      ∧ loggedAsError GoErr.eof = false :=
  non_search_command_silent guid0 5075 [10, 0, 0, 5] stubDir msgBeacon
    (by decide)

/-! Inversion helpers for the beacon startup pipeline. -/

lemma schedAfter_seq_init (guid : List Nat) (port : Nat)
    (senders : List sender) (k : Nat) :
    (schedAfter senders (initialBeacon guid port) k).beacon.beaconSequenceID = k := by
  rw [schedAfter_seq]
  show 0 + k = k
  omega

lemma serveStartup_ok (gr : Except GoErr (List Nat)) (cfg : List Nat)
    (zone : String) (ifr : Except GoErr (List NetInterface))
    (dial : IPAddr → List Nat → Except GoErr Unit)
    (g : List Nat) (ss : List sender)
    (h : serveStartup gr cfg zone ifr dial = .ok (g, ss)) :
    gr = .ok g ∧ ∃ ips, beaconIPs cfg zone ifr = .ok ips
      ∧ mkSenders dial ips = .ok ss := by
  cases gr with
  | error e =>
    exact Except.noConfusion
      (show (Except.error e : Except GoErr (List Nat × List sender))
          = .ok (g, ss) from h)
  | ok g' =>
    have h1 : (match beaconIPs cfg zone ifr with
      | Except.error e1 => (Except.error e1 : Except GoErr (List Nat × List sender))
      | Except.ok ips =>
        match mkSenders dial ips with
        | Except.error e1 => Except.error e1
        | Except.ok ss2 => Except.ok (g', ss2)) = .ok (g, ss) := h
    cases hips : beaconIPs cfg zone ifr with
    | error e1 => rw [hips] at h1; exact Except.noConfusion h1
    | ok ips =>
      rw [hips] at h1
      have h2 : (match mkSenders dial ips with
        | Except.error e1 =>
            (Except.error e1 : Except GoErr (List Nat × List sender))
        | Except.ok ss2 => Except.ok (g', ss2)) = .ok (g, ss) := h1
      cases hmk : mkSenders dial ips with
      | error e1 => rw [hmk] at h2; exact Except.noConfusion h2
      | ok ss' =>
        rw [hmk] at h2
        have hp := Except.ok.inj h2
        rw [Prod.mk.injEq] at hp
        obtain ⟨rfl, rfl⟩ := hp
        exact ⟨rfl, ips, rfl, hmk⟩

lemma mkSenders_ok_map_ip (dial : IPAddr → List Nat → Except GoErr Unit) :
    ∀ (ips : List IPAddr) (ss : List sender),
      mkSenders dial ips = .ok ss → ss.map sender.ip = ips.map IPAddr.ip := by
  intro ips
  induction ips with
  | nil =>
    intro ss h
    have h' : (Except.ok ([] : List sender) : Except GoErr (List sender)) = .ok ss := h
    rw [← Except.ok.inj h']
    rfl
  | cons a rest ih =>
    intro ss h
    have h1 : (match dial a (beaconDest a.ip) with
      | Except.error e => (Except.error e : Except GoErr (List sender))
      | Except.ok _ =>
        match mkSenders dial rest with
        | Except.error e => Except.error e
        | Except.ok ss2 => Except.ok ({ ip := a.ip } :: ss2)) = .ok ss := h
    cases hd : dial a (beaconDest a.ip) with
    | error e => rw [hd] at h1; exact Except.noConfusion h1
    | ok u =>
      rw [hd] at h1
      have h2 : (match mkSenders dial rest with
        | Except.error e => (Except.error e : Except GoErr (List sender))
        | Except.ok ss2 => Except.ok ({ ip := a.ip } :: ss2)) = .ok ss := h1
      cases hmk : mkSenders dial rest with
      | error e => rw [hmk] at h2; exact Except.noConfusion h2
      | ok ss' =>
        rw [hmk] at h2
        rw [← Except.ok.inj h2]
        show a.ip :: ss'.map sender.ip = a.ip :: rest.map IPAddr.ip
        rw [ih ss' hmk]

/-- C4: started at the zero template, the scheduler's BeaconSequenceID
equals the tick index: it is 1 on the first transmitted beacon, grows by
exactly 1 per tick (the counter is incremented once per tick, for any
number of outbound endpoints), and every endpoint's transmitted copy in
tick `n` carries the same value `n`. -/
theorem beacon_sequence_invariant (guid : List Nat) (port : Nat)
    (senders : List sender) (n : Nat) (h : 1 ≤ n) :
    (∀ m ∈ schedOutputs senders (initialBeacon guid port) n,
        m.beaconSequenceID = n)
    ∧ (schedAfter senders (initialBeacon guid port) n).beacon.beaconSequenceID = n
    ∧ (schedAfter senders (initialBeacon guid port) (n + 1)).beacon.beaconSequenceID
        = (schedAfter senders (initialBeacon guid port) n).beacon.beaconSequenceID
            + 1 := by
  refine ⟨?_, schedAfter_seq_init guid port senders n, ?_⟩
  · intro m hm
    rw [schedOutputs_eq _ _ _ h] at hm
    rcases List.mem_map.mp hm with ⟨s, _, rfl⟩
    rw [sender_send_seq, schedAfter_seq_init]
  · rw [schedAfter_seq_init, schedAfter_seq_init]

/-- C4 witness: at the first tick, with one outbound endpoint, the counter
reads 1. -/
theorem beacon_sequence_invariant_witness :
    (schedAfter [{ ip := [127, 0, 0, 1] }] (initialBeacon guid0 5075)
        1).beacon.beaconSequenceID = 1 :=
  (beacon_sequence_invariant guid0 5075 [{ ip := [127, 0, 0, 1] }] 1
      (by decide)).2.1

/-- C5: ticks 1 through startupCount fire under the 1-second ticker; when
tick 15 is processed the ticker is replaced by the 5-second one, which
stays in force for every later tick; tick times are strictly increasing
and every tick index fires exactly once (tick 15 completes the 15-second
start-up phase and tick 16 follows 5 seconds later), so none is dropped or
duplicated across the transition. -/
theorem beacon_timer_phases (guid : List Nat) (port : Nat)
    (senders : List sender) :
    (∀ n, 1 ≤ n → n < startupCount →
        tickInterval senders (initialBeacon guid port) n = startupInterval)
    ∧ tickInterval senders (initialBeacon guid port) startupCount
        = startupInterval
    ∧ (schedAfter senders (initialBeacon guid port) startupCount).period
        = beaconInterval
    ∧ (∀ n, startupCount < n →
        tickInterval senders (initialBeacon guid port) n = beaconInterval)
    ∧ tickTime senders (initialBeacon guid port) startupCount
        = startupCount * startupInterval
    ∧ (∀ n, startupCount ≤ n →
        tickTime senders (initialBeacon guid port) (n + 1)
          = tickTime senders (initialBeacon guid port) n + beaconInterval)
    ∧ (∀ n, tickTime senders (initialBeacon guid port) n
          < tickTime senders (initialBeacon guid port) (n + 1)) := by
  refine ⟨?_, ?_, ?_, ?_, ?_, ?_, ?_⟩
  · intro n h1 h2
    rw [tickInterval_eq, if_pos (by omega)]
  · rw [tickInterval_eq, if_pos (by decide)]
  · rw [schedAfter_period, if_neg (by omega)]
  · intro n hgt
    rw [tickInterval_eq, if_neg (by omega)]
  · exact tickTime_startup _ _ _ (le_refl _)
  · intro n hge
    show tickTime senders (initialBeacon guid port) n
        + tickInterval senders (initialBeacon guid port) (n + 1) = _
    rw [tickInterval_eq, if_neg (by omega)]
  · intro n
    show tickTime senders (initialBeacon guid port) n
        < tickTime senders (initialBeacon guid port) n
          + tickInterval senders (initialBeacon guid port) (n + 1)
    have hpos : 0 < tickInterval senders (initialBeacon guid port) (n + 1) := by
      rw [tickInterval_eq]
      split
      · decide
      · decide
    omega

/-- C5 witness: the first tick fires under the start-up interval and tick
16 under the steady-state one. -/
theorem beacon_timer_phases_witness :
    tickInterval [] (initialBeacon guid0 5075) 1 = startupInterval
    ∧ tickInterval [] (initialBeacon guid0 5075) 16 = beaconInterval :=
  ⟨(beacon_timer_phases guid0 5075 []).1 1 (by decide) (by decide),
   (beacon_timer_phases guid0 5075 []).2.2.2.1 16 (by decide)⟩

/-- A dial outcome with no failures, for concrete startup runs. -/
def dialOK : IPAddr → List Nat → Except GoErr Unit := fun _ _ => .ok ()

/-- C6: every beacon transmitted at a tick carries, in its server address
field, the local address of the outbound path it is sent on, substituted
into the (still zero) template field at send time; the planned paths are
exactly the planner's addresses — in particular a concrete configured
address yields a single path advertising exactly that address, while a
wildcard one yields one path per interface address, each advertising its
own. -/
theorem beacon_advertised_address (gr : Except GoErr (List Nat))
    (cfg : List Nat) (zone : String)
    (ifr : Except GoErr (List NetInterface))
    (dial : IPAddr → List Nat → Except GoErr Unit) (port : Nat)
    (g : List Nat) (senders : List sender) (n : Nat)
    (hok : serveStartup gr cfg zone ifr dial = .ok (g, senders))
    (hn : 1 ≤ n) :
    schedOutputs senders (initialBeacon g port) n
      = senders.map (fun s =>
          { (schedAfter senders (initialBeacon g port) n).beacon with
              serverAddress := goCopy zero16 s.ip })
    ∧ (∀ ips, beaconIPs cfg zone ifr = .ok ips →
        senders.map sender.ip = ips.map IPAddr.ip)
    ∧ (wildcardMode cfg = false → senders.map sender.ip = [cfg]) := by
  obtain ⟨hg, ips0, hips0, hss0⟩ :=
    serveStartup_ok gr cfg zone ifr dial g senders hok
  have hmap : ∀ ips, beaconIPs cfg zone ifr = .ok ips →
      senders.map sender.ip = ips.map IPAddr.ip := by
    intro ips hips
    have heq := Except.ok.inj (hips0.symm.trans hips)
    rw [← heq]
    exact mkSenders_ok_map_ip dial ips0 senders hss0
  refine ⟨?_, hmap, ?_⟩
  · rw [schedOutputs_eq _ _ _ hn]
    have hb : (schedAfter senders (initialBeacon g port) n).beacon.serverAddress
        = zero16 := by
      rw [schedAfter_serverAddress]
      rfl
    simp only [sender.send, hb]
  · intro hw
    have hconc : beaconIPs cfg zone ifr = .ok [{ ip := cfg, zone := zone }] := by
      simp [beaconIPs, hw]
    simpa using hmap [{ ip := cfg, zone := zone }] hconc

/-- C6 witness: a concrete configured address 192.0.2.5 yields exactly one
outbound path advertising that address. -/
theorem beacon_advertised_address_witness :
    ([{ ip := [192, 0, 2, 5] }] : List sender).map sender.ip
      = [[192, 0, 2, 5]] :=
  (beacon_advertised_address (.ok guid0) [192, 0, 2, 5] "" (.ok []) dialOK
      5075 guid0 [{ ip := [192, 0, 2, 5] }] 1 (by rfl) (by decide)).2.2 (by rfl)

/-- C8: a failure of the random-identity read, of interface enumeration (in
wildcard mode), or of outbound socket creation makes Serve return that very
error with no beacon ever transmitted, for any number of ticks that would
otherwise have elapsed. -/
theorem startup_errors_abort (gr : Except GoErr (List Nat)) (cfg : List Nat)
    (zone : String) (ifr : Except GoErr (List NetInterface))
    (dial : IPAddr → List Nat → Except GoErr Unit) (port ticks : Nat) :
    (∀ e, gr = .error e →
        Serve gr cfg zone ifr dial port ticks = .error e)
    ∧ (∀ g e, gr = .ok g → wildcardMode cfg = true → ifr = .error e →
        Serve gr cfg zone ifr dial port ticks = .error e)
    ∧ (∀ g ips e, gr = .ok g → beaconIPs cfg zone ifr = .ok ips →
        mkSenders dial ips = .error e →
        Serve gr cfg zone ifr dial port ticks = .error e)
    ∧ (∀ e, serveStartup gr cfg zone ifr dial = .error e →
        transmittedBeacons (Serve gr cfg zone ifr dial port ticks) = []) := by
  have central : ∀ e, serveStartup gr cfg zone ifr dial = .error e →
      Serve gr cfg zone ifr dial port ticks = .error e := by
    intro e h
    unfold Serve
    rw [h]
  refine ⟨?_, ?_, ?_, ?_⟩
  · intro e hg
    apply central
    unfold serveStartup
    rw [hg]
  · intro g e hg hw hi
    apply central
    unfold serveStartup
    rw [hg]
    show (match beaconIPs cfg zone ifr with
      | Except.error e1 => (Except.error e1 : Except GoErr (List Nat × List sender))
      | Except.ok ips =>
        match mkSenders dial ips with
        | Except.error e1 => Except.error e1
        | Except.ok ss => Except.ok (g, ss)) = Except.error e
    have hips : beaconIPs cfg zone ifr = .error e := by
      simp [beaconIPs, hw, hi]
    rw [hips]
  · intro g ips e hg hips hmk
    apply central
    unfold serveStartup
    rw [hg]
    show (match beaconIPs cfg zone ifr with
      | Except.error e1 => (Except.error e1 : Except GoErr (List Nat × List sender))
      | Except.ok ips =>
        match mkSenders dial ips with
        | Except.error e1 => Except.error e1
        | Except.ok ss => Except.ok (g, ss)) = Except.error e
    rw [hips]
    show (match mkSenders dial ips with
      | Except.error e1 => (Except.error e1 : Except GoErr (List Nat × List sender))
      | Except.ok ss => Except.ok (g, ss)) = Except.error e
    rw [hmk]
  · intro e h
    rw [central e h]
    rfl

/-- C8 witness: a failing random read aborts a three-tick run with that
error. -/
theorem startup_errors_abort_witness :
    Serve (.error (GoErr.other "rand failed")) [] "" (.ok []) dialOK 5075 3
      = .error (GoErr.other "rand failed") :=
  (startup_errors_abort (.error (GoErr.other "rand failed")) [] "" (.ok [])
      dialOK 5075 3).1 (GoErr.other "rand failed") rfl

end PVASearch
